import Mathlib

/-!
Verification of the custodial signing orchestrator of `snap-institutional-wallet`.

The development shallowly embeds the orchestrator (`CustodialKeyring` in
`keyring.ts`) and the two protocol clients (`ECA1Client.ts`, `ECA3Client.ts`).
Stateful TypeScript classes become explicit state passing on plain structures;
the JavaScript `Map` used for the per-address client cache becomes an
association list with `mapGet`/`mapSet`/`mapDelete`; `async` methods that can
throw become functions into `Except String _`.  External primitives that the
source imports from libraries (`toChecksumAddress` from `@ethereumjs/util`,
SHA-256 from `crypto`) are parameters of the embedded functions.  Event
emission (`EventEmitter`) is modelled by returning the list of events emitted
during a call, in emission order.
-/

/-- Decidable equality for `Except`, so that outcomes containing a
returned-or-thrown value can be evaluated on concrete inputs. -/
instance {ε α : Type} [DecidableEq ε] [DecidableEq α] :
    DecidableEq (Except ε α) := fun x y =>
  match x, y with
  | .ok a, .ok b =>
    if h : a = b then .isTrue (by rw [h])
    else .isFalse (by intro hh; cases hh; exact h rfl)
  | .error a, .error b =>
    if h : a = b then .isTrue (by rw [h])
    else .isFalse (by intro hh; cases hh; exact h rfl)
  | .ok _, .error _ => .isFalse (by intro h; cases h)
  | .error _, .ok _ => .isFalse (by intro h; cases h)

/-- `OnBoardingRpcRequest` / wallet `details` in the source: the per-custodian
connection parameters stored alongside an account.  `token` is the current
refresh token. -/
structure WalletDetails where
  token : String
  custodianApiUrl : String
  custodianType : String
  refreshTokenUrl : String
  custodianEnvironment : String
  custodianDisplayName : String
  deriving DecidableEq, Repr

/-- `CustodialKeyringAccount` in the source, flattened: `options.custodian`
fields (`environmentName`, `displayName`, `deferPublication`, `importOrigin`)
and `options.accountName` are inlined as plain fields. -/
structure Account where
  id : String
  address : String
  methods : List String
  environmentName : String
  displayName : String
  deferPublication : Bool
  importOrigin : String
  accountName : Option String
  deriving DecidableEq, Repr

/-- A wallet record as stored by the state manager: `{ account, details }`. -/
structure WalletConnection where
  account : Account
  details : WalletDetails
  deriving DecidableEq, Repr

/-- A constructed custodian API client.  `clientId` is a freshness tag that
stands for the JavaScript object identity of the `new CustodianApiClass(...)`
instance; the remaining fields record the constructor arguments taken from the
wallet details in `CustodialKeyring.#getCustodianApi`. -/
structure ClientInstance where
  clientId : Nat
  refreshToken : String
  custodianApiUrl : String
  refreshTokenUrl : String
  deriving DecidableEq, Repr

/-- Payload of the `REFRESH_TOKEN_CHANGE_EVENT` (`IRefreshTokenChangeEvent`). -/
structure IRefreshTokenChangeEvent where
  apiUrl : String
  oldRefreshToken : String
  newRefreshToken : String
  deriving DecidableEq, Repr

/-- `Map.get` on an association list (JavaScript `Map` keyed by strings). -/
def mapGet {α : Type} (m : List (String × α)) (k : String) : Option α :=
  (m.find? (fun kv => kv.1 == k)).map (fun kv => kv.2)

/-- `Map.set` on an association list: replaces the value in place when the key
is present, otherwise appends the new entry (JavaScript `Map` insertion
order). -/
def mapSet {α : Type} (m : List (String × α)) (k : String) (v : α) :
    List (String × α) :=
  if m.any (fun kv => kv.1 == k) then
    m.map (fun kv => if kv.1 == k then (k, v) else kv)
  else
    m ++ [(k, v)]

/-- `Map.delete` on an association list. -/
def mapDelete {α : Type} (m : List (String × α)) (k : String) :
    List (String × α) :=
  m.filter (fun kv => kv.1 != k)

/-- Modelled from the spec: the state collaborator's `getWalletByAddress(addr)`
(`stateManagement.ts` is not among the given sources).  Looks a stored wallet
up by exact account address, per the §6 interface and the repository's own
test double, which implements it as
`mockWallets.find((wallet) => wallet.account.address === accountAddress)`. -/
def getWalletByAddress (wallets : List WalletConnection) (addr : String) :
    Option WalletConnection :=
  wallets.find? (fun w => w.account.address == addr)

/-- Modelled from the spec: the state collaborator's
`updateWalletDetails(accountId, details)` (`stateManagement.ts` is not among
the given sources): replaces the stored details of the wallet whose account id
matches, leaving every other wallet unchanged (§6 interface). -/
def updateWalletDetails (wallets : List WalletConnection) (accountId : String)
    (details : WalletDetails) : List WalletConnection :=
  wallets.map (fun w =>
    if w.account.id == accountId then { w with details := details } else w)

/-- The orchestrator state relevant to the client cache: the stored wallets
(behind the state manager), the `#custodianApi` map keyed by address, and a
counter allocating fresh client identities. -/
structure KeyringState where
  wallets : List WalletConnection
  custodianApi : List (String × ClientInstance)
  nextClientId : Nat
  deriving DecidableEq, Repr

/-- `CustodialKeyring.#getCustodianApi(details)`: constructs a new client from
the stored wallet details (`refreshToken := details.token`, etc.).  The
subscription of the rotation handler is part of the orchestrator model, not of
the client value. -/
def getCustodianApiFromDetails (clientId : Nat) (details : WalletDetails) :
    ClientInstance :=
  { clientId := clientId
    refreshToken := details.token
    custodianApiUrl := details.custodianApiUrl
    refreshTokenUrl := details.refreshTokenUrl }

/-- `CustodialKeyring.getCustodianApiForAddress(address)`: normalize the
address with the external `toChecksumAddress` primitive (a parameter here), on
a cache hit return the cached client unchanged, on a miss look the wallet up
by the checksummed address (failing when absent), construct a client from the
wallet's details and store it under the checksummed key.  The source's final
`return this.#custodianApi.get(checksumAddress)` after the `set` is the
freshly stored client. -/
def getCustodianApiForAddress (toChecksumAddress : String → String)
    (s : KeyringState) (address : String) :
    Except String (KeyringState × ClientInstance) :=
  let checksumAddress := toChecksumAddress address
  match mapGet s.custodianApi checksumAddress with
  | some api => .ok (s, api)
  | none =>
    match getWalletByAddress s.wallets checksumAddress with
    | none => .error ("Wallet for account " ++ address ++ " does not exist")
    | some wallet =>
      let custodianApi := getCustodianApiFromDetails s.nextClientId wallet.details
      .ok ({ s with
              custodianApi := mapSet s.custodianApi checksumAddress custodianApi
              nextClientId := s.nextClientId + 1 },
           custodianApi)

/-- The filter predicate of `CustodialKeyring.#handleTokenChangedEvent`:
`wallet.details.token === payload.oldRefreshToken &&
wallet.details.custodianApiUrl === payload.apiUrl`. -/
def walletMatchesEvent (payload : IRefreshTokenChangeEvent)
    (w : WalletConnection) : Bool :=
  w.details.token == payload.oldRefreshToken &&
    w.details.custodianApiUrl == payload.apiUrl

/-- One iteration of the `for (const wallet of walletsToUpdate)` loop in
`#handleTokenChangedEvent`: delete the cache entry keyed by
`wallet.account.address` (the stored address, as written in the source), then
persist the details with the new token under the wallet's account id. -/
def rotateWalletStep (payload : IRefreshTokenChangeEvent) (s : KeyringState)
    (wallet : WalletConnection) : KeyringState :=
  let updatedDetails := { wallet.details with token := payload.newRefreshToken }
  { s with
    custodianApi := mapDelete s.custodianApi wallet.account.address
    wallets := updateWalletDetails s.wallets wallet.account.id updatedDetails }

/-- `CustodialKeyring.#handleTokenChangedEvent(payload)`: select the wallets
matching `(oldRefreshToken, apiUrl)` from a snapshot of the stored wallets,
then run the update loop over them. -/
def handleTokenChangedEvent (s : KeyringState)
    (payload : IRefreshTokenChangeEvent) : KeyringState :=
  let walletsToUpdate := s.wallets.filter (walletMatchesEvent payload)
  walletsToUpdate.foldl (rotateWalletStep payload) s

/-- Modelled from the spec: the `SimpleCache` entry behind the clients'
access-token cache (`lib/simple-cache` is not among the given sources).  Per
§4.1, `set(value, ttlSeconds)` records the issuance time as wall-clock now and
the value is trusted only while `now < issuedAt + ttl`. -/
structure CacheEntry where
  value : String
  issuedAt : Int
  deriving DecidableEq, Repr

/-- Modelled from the spec: `SimpleCache.cacheExists('accessToken')` — an
entry has been stored. -/
def cacheExists (cache : Option CacheEntry) : Bool :=
  cache.isSome

/-- Modelled from the spec: `SimpleCache.cacheValid('accessToken', age)` — the
entry is still trusted at time `now` for the given age (§3 invariant:
trusted while `now < issuedAt + ttl`). -/
def cacheValid (now : Int) (cache : Option CacheEntry) (age : Int) : Bool :=
  match cache with
  | none => false
  | some entry => now < entry.issuedAt + age

/-- Modelled from the spec: `SimpleCache.setCache('accessToken', value)` at
time `now`. -/
def setCache (now : Int) (value : String) : Option CacheEntry :=
  some { value := value, issuedAt := now }

/-- The mutable fields of `ECA1Client` / `ECA3Client` relevant to
`getAccessToken`, plus the construction-time configuration. -/
structure ClientState where
  apiBaseUrl : String
  refreshToken : String
  refreshTokenUrl : String
  cacheAge : Option Int
  cache : Option CacheEntry
  deriving DecidableEq, Repr

/-- The refresh-endpoint HTTP response as the clients observe it: the status
code plus the JSON body fields they read.  An absent JSON field is `none`. -/
structure RefreshResponse where
  status : Nat
  url : Option String
  message : String
  expires_in : Option Int
  access_token : String
  refresh_token : Option String
  deriving DecidableEq, Repr

/-- The Fetch API's `response.ok`: status in the inclusive range 200–299. -/
def responseOk (r : RefreshResponse) : Bool :=
  200 ≤ r.status && r.status < 300

/-- JavaScript truthiness of a possibly-absent number (`undefined`, `null` and
`0` are falsy). -/
def jsTruthyNum : Option Int → Bool
  | none => false
  | some x => x != 0

/-- JavaScript truthiness of a possibly-absent string (`undefined`, `null` and
the empty string are falsy). -/
def jsTruthyStr : Option String → Bool
  | none => false
  | some s => s != ""

/-- An event emitted by a protocol client during `getAccessToken`:
`TOKEN_EXPIRED_EVENT` (whose `oldRefreshToken` field carries the hashed
token) or `REFRESH_TOKEN_CHANGE_EVENT`. -/
inductive ClientEvent where
  | tokenExpired (url : String) (oldRefreshToken : String)
  | refreshTokenRotated (payload : IRefreshTokenChangeEvent)
  deriving DecidableEq, Repr

/-- The outcome of one `getAccessToken` call: the client state afterwards, the
events emitted during the call in emission order (all emitted before the call
returns), the returned access token or the thrown error, and whether the
refresh endpoint was actually contacted (`false` exactly on the cache-hit
early return; the function performs at most one fetch per call by
construction, so there is no automatic retry). -/
structure AccessTokenResult where
  state : ClientState
  events : List ClientEvent
  result : Except String String
  fetchPerformed : Bool
  deriving DecidableEq, Repr

/-- `getAccessToken` of the protocol clients.  `ECA1Client.getAccessToken` and
`ECA3Client.getAccessToken` share this body verbatim; they differ only in the
wire encoding of the refresh request (form-encoded versus JSON body), which
the token-lifecycle logic never inspects, so the response is taken here as an
already-decoded `RefreshResponse` input.  `sha256hex` stands for the external
`crypto.createHash('sha256')...digest('hex')` primitive.  Control flow mirrors
the source: cache-hit early return; 401-with-`url` emits the token-expired
event with the hashed token and throws; other non-ok statuses throw; on
success the cache age and access-token cache are updated, and when the
response carries a truthy `refresh_token` different from the held one the held
token is replaced and the rotation event is emitted, before the access token
is returned.  Thrown errors carry the outer wrapper prefix added by the
`catch` block. -/
def clientGetAccessToken (sha256hex : String → String) (now : Int)
    (st : ClientState) (response : RefreshResponse) : AccessTokenResult :=
  if jsTruthyNum st.cacheAge && cacheExists st.cache &&
      cacheValid now st.cache (st.cacheAge.getD 0) then
    { state := st
      events := []
      result := .ok ((st.cache.map (fun e => e.value)).getD "")
      fetchPerformed := false }
  else if response.status == 401 && jsTruthyStr response.url then
    let url := response.url.getD ""
    let oldRefreshToken := st.refreshToken
    let hashedToken := sha256hex (oldRefreshToken ++ url)
    { state := st
      events := [.tokenExpired url hashedToken]
      result := .error
        "Error getting the Access Token: Refresh token provided is no longer valid."
      fetchPerformed := true }
  else if !(responseOk response) then
    { state := st
      events := []
      result := .error ("Error getting the Access Token: Request failed with status "
        ++ toString response.status ++ ": " ++ response.message)
      fetchPerformed := true }
  else
    let st1 := { st with
      cacheAge := response.expires_in
      cache := setCache now response.access_token }
    if jsTruthyStr response.refresh_token &&
        response.refresh_token != some st.refreshToken then
      let newRefreshToken := response.refresh_token.getD ""
      { state := { st1 with refreshToken := newRefreshToken }
        events := [.refreshTokenRotated
          { apiUrl := st.apiBaseUrl
            oldRefreshToken := st.refreshToken
            newRefreshToken := newRefreshToken }]
        result := .ok response.access_token
        fetchPerformed := true }
    else
      { state := st1
        events := []
        result := .ok response.access_token
        fetchPerformed := true }

/-- `ECA1Client.getAccessToken` (generation-1 client). -/
def ECA1Client.getAccessToken : (String → String) → Int → ClientState →
    RefreshResponse → AccessTokenResult :=
  clientGetAccessToken

/-- `ECA3Client.getAccessToken` (generation-3 client). -/
def ECA3Client.getAccessToken : (String → String) → Int → ClientState →
    RefreshResponse → AccessTokenResult :=
  clientGetAccessToken

/-- `EthMethod.PersonalSign` from `@metamask/keyring-api`. -/
def EthMethod.PersonalSign : String := "personal_sign"

/-- `EthMethod.SignTransaction` from `@metamask/keyring-api`. -/
def EthMethod.SignTransaction : String := "eth_signTransaction"

/-- `EthMethod.SignTypedDataV3` from `@metamask/keyring-api`. -/
def EthMethod.SignTypedDataV3 : String := "eth_signTypedData_v3"

/-- `EthMethod.SignTypedDataV4` from `@metamask/keyring-api`. -/
def EthMethod.SignTypedDataV4 : String := "eth_signTypedData_v4"

/-- One entry of the custodian allow-list (`custodianMetadata.ts`), projected
to the fields `createAccount` reads: the `apiBaseUrl` key it matches on, the
canonical `name` it resolves, and `custodianPublishesTransaction`. -/
structure CustodianMetadataEntry where
  apiBaseUrl : String
  name : String
  custodianPublishesTransaction : Bool
  deriving DecidableEq, Repr

/-- The static custodian allow-list from `custodianMetadata.ts` (all entries,
in source order, projected to the fields `createAccount` reads). -/
def custodianMetadata : List CustodianMetadataEntry :=
  [ { apiBaseUrl := "https://app.bitgo-test.com/defi/v2", name := "bitgo-test",
      custodianPublishesTransaction := true },
    { apiBaseUrl := "https://app.bitgo.com/defi/v2", name := "bitgo-prod",
      custodianPublishesTransaction := true },
    { apiBaseUrl := "https://api.mycactus.com/custody/v1/mmi-api", name := "cactus",
      custodianPublishesTransaction := true },
    { apiBaseUrl := "http://localhost:8090", name := "gk8-prod",
      custodianPublishesTransaction := true },
    { apiBaseUrl := "http://localhost:8090", name := "gk8-eca3-prod",
      custodianPublishesTransaction := true },
    { apiBaseUrl := "https://safe-mmi.staging.gnosisdev.com/api", name := "gnosis-safe-dev",
      custodianPublishesTransaction := true },
    { apiBaseUrl := "https://safe-mmi.safe.global/api", name := "safe-prod",
      custodianPublishesTransaction := true },
    { apiBaseUrl := "https://safe-mmi.staging.5afe.dev/api", name := "gnosis-safe-staging",
      custodianPublishesTransaction := true },
    { apiBaseUrl := "https://api.mpcvault.com/mmi", name := "mpcvault-prod",
      custodianPublishesTransaction := true },
    { apiBaseUrl := "https://api-preprod.uat.zodia.io", name := "zodia-preprod",
      custodianPublishesTransaction := true },
    { apiBaseUrl := "https://mmi.fireblocks.io", name := "fireblocks-prod",
      custodianPublishesTransaction := true },
    { apiBaseUrl := "https://sandbox.fireblocks.io/", name := "fireblocks-sandbox",
      custodianPublishesTransaction := true },
    { apiBaseUrl := "https://eu-console.fireblocks.io/", name := "fireblocks-eu",
      custodianPublishesTransaction := true },
    { apiBaseUrl := "https://eu2-console.fireblocks.io/", name := "fireblocks-eu2",
      custodianPublishesTransaction := true },
    { apiBaseUrl := "https://local.waterballoons.xyz:4200", name := "waterballoons-local",
      custodianPublishesTransaction := true },
    { apiBaseUrl := "https://dev4-console-api.waterballoons.xyz", name := "waterballoons-dev10",
      custodianPublishesTransaction := true },
    { apiBaseUrl := "https://dev4-console-api.waterballoons.xyz", name := "waterballoons-dev4",
      custodianPublishesTransaction := true },
    { apiBaseUrl := "https://zapi.custody.zodia.io", name := "zodia-prod",
      custodianPublishesTransaction := true },
    { apiBaseUrl := "https://api.sit.zodia.io", name := "zodia-sit",
      custodianPublishesTransaction := true },
    { apiBaseUrl := "https://api-qa.qa.zodia.io", name := "zodia-qa",
      custodianPublishesTransaction := true },
    { apiBaseUrl := "http://localhost:8090", name := "gk8-eca3-dev",
      custodianPublishesTransaction := true },
    { apiBaseUrl := "https://api.dev.mpcvault.com/mmi", name := "mpcvault-dev",
      custodianPublishesTransaction := false },
    { apiBaseUrl := "https://gamma.signer.cubist.dev/v0/mmi", name := "cubist-gamma",
      custodianPublishesTransaction := false },
    { apiBaseUrl := "https://beta.signer.cubist.dev/v0/mmi", name := "cubist-beta",
      custodianPublishesTransaction := false },
    { apiBaseUrl := "https://dg5z0qnzb9s65.cloudfront.net/v0/mmi", name := "cubist-test",
      custodianPublishesTransaction := false },
    { apiBaseUrl := "https://prod.signer.cubist.dev/v0/mmi", name := "cubist-prod",
      custodianPublishesTransaction := false },
    { apiBaseUrl := "http://localhost:3330", name := "local-dev",
      custodianPublishesTransaction := false } ]

/-- Modelled from the spec: `isUniqueAddress(address, wallets)`
(`util/is-unique-address.ts` is not among the given sources).  Per §4.4 and
the §8 testable property, the address is unique when it is not already present
among the stored wallets. -/
def isUniqueAddress (address : String) (wallets : List WalletConnection) : Bool :=
  !(wallets.any (fun w => w.account.address == address))

/-- Input of `createAccount` (`CreateAccountOptions` struct). -/
structure CreateAccountOptions where
  address : String
  name : Option String
  details : WalletDetails
  origin : String
  deriving DecidableEq, Repr

/-- Observable outcome of one `createAccount` call: the returned account or
thrown error, whether the external `AccountCreated` registration event was
emitted (whether or not the acceptor then vetoed it), and the stored wallet
list afterwards. -/
structure CreateAccountOutcome where
  result : Except String Account
  accountCreatedEmitted : Bool
  walletsAfter : List WalletConnection
  deriving DecidableEq, Repr

/-- `CustodialKeyring.createAccount(options)`.  `dev` is `config.dev`;
`accepted` is the verdict of the external acceptor of the `AccountCreated`
event (`false` means the `emitSnapKeyringEvent` call throws, i.e. the client
vetoes); `newId` stands for the freshly generated `uuid()`.  Control flow
mirrors the source: allow-list lookup (fatal in non-dev mode when absent),
duplicate-address check, account construction with the four signing methods,
event emission, and only then `addWallet`. -/
def createAccount (dev : Bool) (accepted : Bool) (newId : String)
    (wallets : List WalletConnection) (options : CreateAccountOptions) :
    CreateAccountOutcome :=
  let custodian := custodianMetadata.find?
    (fun item => item.apiBaseUrl == options.details.custodianApiUrl)
  if !dev && custodian.isNone then
    { result := .error ("No custodian allowlisted for API URL: "
        ++ options.details.custodianApiUrl)
      accountCreatedEmitted := false
      walletsAfter := wallets }
  else
    let custodianEnvironmentName :=
      if dev then options.details.custodianEnvironment
      else (custodian.map (fun c => c.name)).getD ""
    let custodianEnvironmentDisplayName := options.details.custodianDisplayName
    if !(isUniqueAddress options.address wallets) then
      { result := .error ("Account address already in use: " ++ options.address)
        accountCreatedEmitted := false
        walletsAfter := wallets }
    else
      let deferPublication :=
        (custodian.map (fun c => c.custodianPublishesTransaction)).getD false
      let account : Account :=
        { id := newId
          address := options.address
          methods := [EthMethod.SignTransaction, EthMethod.PersonalSign,
            EthMethod.SignTypedDataV3, EthMethod.SignTypedDataV4]
          environmentName := custodianEnvironmentName
          displayName := custodianEnvironmentDisplayName
          deferPublication := deferPublication
          importOrigin := options.origin
          accountName := options.name }
      if accepted then
        { result := .ok account
          accountCreatedEmitted := true
          walletsAfter := wallets ++ [{ account := account, details := options.details }] }
      else
        { result := .error "Account creation rejected by the client"
          accountCreatedEmitted := true
          walletsAfter := wallets }

/-- The keyring-api request passed to `submitRequest`, projected to the fields
the orchestrator reads: the request id, the target account id and the
requested method. -/
structure KeyringRequest where
  id : String
  account : String
  method : String
  deriving DecidableEq, Repr

/-- A persisted `CustodialSnapRequest` record, projected to the fields the
orchestrator writes at submission time (`type` is `requestType` here;
`message`/`transaction`/`signature`/`lastUpdated` carry opaque collaborator
data and are omitted). -/
structure CustodialSnapRequest where
  keyringRequest : KeyringRequest
  requestType : String
  subType : Option String
  fulfilled : Bool
  rejected : Bool
  deriving DecidableEq, Repr

/-- Observable outcome of `#handleSigningRequest`: the custodian-assigned id
or the thrown error, how many custodian-client interactions were started (the
resolve-client-and-call-helper sequence of the dispatched branch), and the
request records upserted into the request manager. -/
structure SigningOutcome where
  result : Except String String
  custodianCalls : Nat
  upserts : List CustodialSnapRequest
  deriving DecidableEq, Repr

/-- `CustodialKeyring.#handleSigningRequest(method, params, keyringRequest)`.
`getAccount` is the state collaborator's account lookup; `custodianOutcome`
abstracts the whole custodian interaction of the dispatched branch (client
resolution plus signing helper), yielding the custodian-assigned id
(`details.id` / `custodianTransactionId`) or the error it throws.  Control
flow mirrors the source: account resolution, explicit supported-method check,
then the four-way dispatch with a throwing default branch; the transaction
branch wraps helper errors per `#signTransaction`. -/
def handleSigningRequest (getAccount : String → Option Account)
    (custodianOutcome : Except String String) (req : KeyringRequest) :
    SigningOutcome :=
  match getAccount req.account with
  | none =>
    { result := .error ("Account " ++ req.account ++ " not found")
      custodianCalls := 0, upserts := [] }
  | some account =>
    if !(account.methods.contains req.method) then
      { result := .error ("Method " ++ req.method ++ " not supported for account "
          ++ account.address)
        custodianCalls := 0, upserts := [] }
    else if req.method == EthMethod.PersonalSign then
      match custodianOutcome with
      | .error e => { result := .error e, custodianCalls := 1, upserts := [] }
      | .ok detailsId =>
        { result := .ok detailsId
          custodianCalls := 1
          upserts := [{ keyringRequest := req, requestType := "message"
                        subType := some "personalSign"
                        fulfilled := false, rejected := false }] }
    else if req.method == EthMethod.SignTransaction then
      match custodianOutcome with
      | .error e =>
        { result := .error ("Failed to sign transaction: " ++ e)
          custodianCalls := 1, upserts := [] }
      | .ok txId =>
        { result := .ok txId
          custodianCalls := 1
          upserts := [{ keyringRequest := req, requestType := "transaction"
                        subType := none
                        fulfilled := false, rejected := false }] }
    else if req.method == EthMethod.SignTypedDataV3 then
      match custodianOutcome with
      | .error e => { result := .error e, custodianCalls := 1, upserts := [] }
      | .ok detailsId =>
        { result := .ok detailsId
          custodianCalls := 1
          upserts := [{ keyringRequest := req, requestType := "message"
                        subType := some "v3"
                        fulfilled := false, rejected := false }] }
    else if req.method == EthMethod.SignTypedDataV4 then
      match custodianOutcome with
      | .error e => { result := .error e, custodianCalls := 1, upserts := [] }
      | .ok detailsId =>
        { result := .ok detailsId
          custodianCalls := 1
          upserts := [{ keyringRequest := req, requestType := "message"
                        subType := some "v4"
                        fulfilled := false, rejected := false }] }
    else
      { result := .error ("EVM method " ++ req.method ++ " not supported")
        custodianCalls := 0, upserts := [] }

/-- A custodian deep link as rendered to the user. -/
structure CustodianDeepLink where
  text : String
  id : String
  url : String
  action : String
  deriving DecidableEq, Repr

/-- The value `submitRequest` resolves with: the source only ever builds
`{ pending: true }`, but the keyring-api response type also admits a
synchronous result, modelled by the `resolved` constructor so that its absence
is expressible. -/
inductive SubmitRequestResponse where
  | pending
  | resolved (result : String)
  deriving DecidableEq, Repr

/-- Observable outcome of `#asyncSubmitRequest`: the response or thrown error,
plus the info message rendered to the user (if the call got that far). -/
structure SubmitOutcome where
  result : Except String SubmitRequestResponse
  renderedMessage : Option String
  deriving DecidableEq, Repr

/-- `CustodialKeyring.#asyncSubmitRequest(request)`.  Runs
`#handleSigningRequest`, re-resolves the account, fetches the deep link from
the custodian client (`getTransactionLink` or `getSignedMessageLink`,
abstracted as `linkFetch`), substituting the fallback
`text: Complete in Custodian App, id: custodianId, url empty, action view` on
any link-fetch failure, renders the info message, and resolves with
`pending`. -/
def asyncSubmitRequest (getAccount : String → Option Account)
    (custodianOutcome : Except String String)
    (linkFetch : Except String CustodianDeepLink) (req : KeyringRequest) :
    SubmitOutcome :=
  let signing := handleSigningRequest getAccount custodianOutcome req
  match signing.result with
  | .error e => { result := .error e, renderedMessage := none }
  | .ok custodianId =>
    match getAccount req.account with
    | none =>
      { result := .error ("Account " ++ req.account ++ " not found")
        renderedMessage := none }
    | some _account =>
      let deepLink := match linkFetch with
        | .ok link => link
        | .error _ =>
          { text := "Complete in Custodian App", id := custodianId
            url := "", action := "view" }
      { result := .ok .pending
        renderedMessage := some (deepLink.text ++ " Transaction ID: " ++ deepLink.id) }

/-- `CustodialKeyring.listRequests()`: in dev mode, the stored records mapped
back to their original keyring requests; otherwise the empty list. -/
def listRequests (dev : Bool) (stored : List CustodialSnapRequest) :
    List KeyringRequest :=
  if dev then stored.map (fun r => r.keyringRequest) else []

/-- `CustodialKeyring.getRequest(id)`: in dev mode, the stored record with the
given keyring-request id (throwing when absent); otherwise always throws. -/
def getRequest (dev : Bool) (stored : List CustodialSnapRequest) (id : String) :
    Except String KeyringRequest :=
  if dev then
    match stored.find? (fun r => r.keyringRequest.id == id) with
    | some r => .ok r.keyringRequest
    | none => .error ("Request " ++ id ++ " not found")
  else
    .error "Method not implemented."

/-- A computable stand-in for the external EIP-55 `toChecksumAddress`
primitive (out of scope per §1, assumed correct), specialised to a demo
address: every case-variant of `0xab` maps to the canonical mixed-case
checksum form `0xAB`; other strings are left unchanged.  Like the real
primitive it is constant on case-variants of an address and idempotent, and
its canonical form differs from some case-variants of the address. -/
def demoChecksum (a : String) : String :=
  if a == "0xab" || a == "0xAb" || a == "0xaB" || a == "0xAB" then "0xAB" else a

/-- Demo wallet details with a given token and custodian API URL. -/
def demoDetails (t u : String) : WalletDetails :=
  { token := t, custodianApiUrl := u, custodianType := "ECA3"
    refreshTokenUrl := "https://refresh.example.com"
    custodianEnvironment := "test-env", custodianDisplayName := "Test" }

/-- Demo account with a given id and address. -/
def demoAccount (i a : String) : Account :=
  { id := i, address := a
    methods := [EthMethod.SignTransaction, EthMethod.PersonalSign,
      EthMethod.SignTypedDataV3, EthMethod.SignTypedDataV4]
    environmentName := "test-env", displayName := "Test"
    deferPublication := false, importOrigin := "https://origin.example.com"
    accountName := none }

/-- Demo wallet connection with a given id, address, token and API URL. -/
def demoWallet (i a t u : String) : WalletConnection :=
  { account := demoAccount i a, details := demoDetails t u }

/-- Demo rotation event: token `T` at API URL `U` rotated to `N`. -/
def demoEvent : IRefreshTokenChangeEvent :=
  { apiUrl := "U", oldRefreshToken := "T", newRefreshToken := "N" }

/-- A client constructed before the rotation, holding the old token `T`. -/
def staleClient : ClientInstance :=
  { clientId := 0, refreshToken := "T", custodianApiUrl := "U"
    refreshTokenUrl := "https://refresh.example.com" }

/-- State with one wallet whose stored address is the lowercase variant
`0xab` (not in checksum form) and whose client is cached under the checksum
key `0xAB`, as `getCustodianApiForAddress` stores it. -/
def lowercaseWalletState : KeyringState :=
  { wallets := [demoWallet "1" "0xab" "T" "U"]
    custodianApi := [("0xAB", staleClient)]
    nextClientId := 1 }

/-- State with one wallet whose stored address `0xAB` is in checksum form and
whose client is cached under that same key. -/
def checksummedWalletState : KeyringState :=
  { wallets := [demoWallet "1" "0xAB" "T" "U"]
    custodianApi := [("0xAB", staleClient)]
    nextClientId := 1 }

/-- The three-wallet fan-out state of the §8 testable property: two wallets
share `(token T, apiUrl U)` and one has `(token T, apiUrl V)`. -/
def rotationDemoState : KeyringState :=
  { wallets := [demoWallet "1" "0xA" "T" "U", demoWallet "2" "0xB" "T" "U",
      demoWallet "3" "0xC" "T" "V"]
    custodianApi := []
    nextClientId := 0 }

/-- Demo client state with no access token cached yet. -/
def demoClientState : ClientState :=
  { apiBaseUrl := "U", refreshToken := "T"
    refreshTokenUrl := "https://refresh.example.com"
    cacheAge := none, cache := none }

/-- Demo client state holding a cached access token issued at time 0 with a
declared lifetime of 100. -/
def cachedClientState : ClientState :=
  { demoClientState with
    cacheAge := some 100
    cache := some { value := "cachedAccessToken", issuedAt := 0 } }

/-- Demo successful refresh response rotating the refresh token to `N`. -/
def rotatingResponse : RefreshResponse :=
  { status := 200, url := none, message := ""
    expires_in := some 600, access_token := "accessToken1"
    refresh_token := some "N" }

/-- Demo successful refresh response carrying no `refresh_token` field. -/
def plainResponse : RefreshResponse :=
  { status := 200, url := none, message := ""
    expires_in := some 600, access_token := "accessToken1"
    refresh_token := none }

/-- Demo 401 response whose body carries a `url` field. -/
def expiredResponse : RefreshResponse :=
  { status := 401, url := some "https://onboard.example.com", message := "expired"
    expires_in := none, access_token := ""
    refresh_token := none }

/-- Demo account lookup exposing one account that supports the four signing
methods, under id `acc-1`. -/
def demoGetAccount : String → Option Account := fun i =>
  if i == "acc-1" then some (demoAccount "acc-1" "0xAB") else none

/-- Demo keyring request targeting account `acc-1`. -/
def demoRequest (method : String) : KeyringRequest :=
  { id := "req-1", account := "acc-1", method := method }

/-- Demo create-account options for a given address and custodian API URL. -/
def demoCreateOptions (a u : String) : CreateAccountOptions :=
  { address := a, name := some "My Account", details := demoDetails "T" u
    origin := "https://origin.example.com" }

/-- Demo stored request record wrapping a keyring request. -/
def demoStoredRequest (i : String) : CustodialSnapRequest :=
  { keyringRequest := { id := i, account := "acc-1", method := EthMethod.PersonalSign }
    requestType := "message", subType := some "personalSign"
    fulfilled := false, rejected := false }

theorem find?_eq_none_of_mapGet_none {α : Type} {m : List (String × α)}
    {k : String} (h : mapGet m k = none) :
    m.find? (fun kv => kv.1 == k) = none := by
  cases hfind : m.find? (fun kv => kv.1 == k) with
  | none => rfl
  | some kv => rw [mapGet, hfind] at h; simp at h

theorem mapGet_mapDelete_self {α : Type} (m : List (String × α)) (k : String) :
    mapGet (mapDelete m k) k = none := by
  have h : (mapDelete m k).find? (fun kv => kv.1 == k) = none := by
    rw [List.find?_eq_none]
    intro x hx
    have hne := List.of_mem_filter hx
    simp only [bne] at hne
    simp [Bool.not_eq_true'] at hne
    simp [hne]
  simp [mapGet, h]

theorem mapGet_mapDelete_of_none {α : Type} {m : List (String × α)}
    {k : String} (h : mapGet m k = none) (k2 : String) :
    mapGet (mapDelete m k2) k = none := by
  have hf := find?_eq_none_of_mapGet_none h
  have h2 : (mapDelete m k2).find? (fun kv => kv.1 == k) = none := by
    rw [List.find?_eq_none] at hf ⊢
    intro x hx
    exact hf x (List.mem_of_mem_filter hx)
  simp [mapGet, h2]

theorem mapGet_mapSet_of_none {α : Type} {m : List (String × α)} {k : String}
    (h : mapGet m k = none) (v : α) : mapGet (mapSet m k v) k = some v := by
  have hf := find?_eq_none_of_mapGet_none h
  have hany : m.any (fun kv => kv.1 == k) = false := by
    rw [List.any_eq_false]
    rw [List.find?_eq_none] at hf
    exact hf
  rw [mapSet, if_neg (by simp [hany])]
  rw [mapGet, List.find?_append, hf]
  simp [List.find?]

theorem mapSet_keys_nodup_of_none {α : Type} {m : List (String × α)}
    {k : String} (h : mapGet m k = none)
    (hn : (m.map (fun kv => kv.1)).Nodup) (v : α) :
    ((mapSet m k v).map (fun kv => kv.1)).Nodup := by
  have hf := find?_eq_none_of_mapGet_none h
  have hany : m.any (fun kv => kv.1 == k) = false := by
    rw [List.any_eq_false]
    rw [List.find?_eq_none] at hf
    exact hf
  rw [mapSet, if_neg (by simp [hany])]
  rw [List.map_append, List.nodup_append]
  refine ⟨hn, by simp, ?_⟩
  intro x hx hx2
  simp at hx2
  subst hx2
  rw [List.mem_map] at hx
  obtain ⟨kv, hkv, hkv2⟩ := hx
  rw [List.find?_eq_none] at hf
  have := hf kv hkv
  simp [hkv2] at this

theorem foldl_rotate_custodianApi (payload : IRefreshTokenChangeEvent) :
    ∀ (ts : List WalletConnection) (s : KeyringState),
    (ts.foldl (rotateWalletStep payload) s).custodianApi
      = ts.foldl (fun m w => mapDelete m w.account.address) s.custodianApi := by
  intro ts
  induction ts with
  | nil => intro s; rfl
  | cons t tl ih =>
    intro s
    rw [List.foldl_cons, List.foldl_cons, ih]
    rfl

theorem foldl_rotate_wallets (payload : IRefreshTokenChangeEvent) :
    ∀ (ts : List WalletConnection) (s : KeyringState),
    (ts.foldl (rotateWalletStep payload) s).wallets
      = ts.foldl (fun ws w => updateWalletDetails ws w.account.id
          { w.details with token := payload.newRefreshToken }) s.wallets := by
  intro ts
  induction ts with
  | nil => intro s; rfl
  | cons t tl ih =>
    intro s
    rw [List.foldl_cons, List.foldl_cons, ih]
    rfl

theorem foldl_rotate_nextClientId (payload : IRefreshTokenChangeEvent) :
    ∀ (ts : List WalletConnection) (s : KeyringState),
    (ts.foldl (rotateWalletStep payload) s).nextClientId = s.nextClientId := by
  intro ts
  induction ts with
  | nil => intro s; rfl
  | cons t tl ih =>
    intro s
    rw [List.foldl_cons, ih]
    rfl

theorem mapGet_foldl_mapDelete_none {k : String} :
    ∀ (ts : List WalletConnection) (m : List (String × ClientInstance)),
    mapGet m k = none →
    mapGet (ts.foldl (fun m w => mapDelete m w.account.address) m) k = none := by
  intro ts
  induction ts with
  | nil => intro m h; exact h
  | cons t tl ih =>
    intro m h
    rw [List.foldl_cons]
    exact ih _ (mapGet_mapDelete_of_none h _)

theorem mapGet_foldl_mapDelete_mem {w : WalletConnection} :
    ∀ (ts : List WalletConnection) (m : List (String × ClientInstance)),
    w ∈ ts →
    mapGet (ts.foldl (fun m t => mapDelete m t.account.address) m)
      w.account.address = none := by
  intro ts
  induction ts with
  | nil => intro m h; cases h
  | cons t tl ih =>
    intro m h
    rw [List.foldl_cons]
    rcases List.mem_cons.mp h with h1 | h2
    · subst h1
      exact mapGet_foldl_mapDelete_none tl _ (mapGet_mapDelete_self m _)
    · exact ih _ h2

theorem foldl_update_addresses (N : String) :
    ∀ (ts ws : List WalletConnection),
    ((ts.foldl (fun ws w => updateWalletDetails ws w.account.id
        { w.details with token := N }) ws).map (fun w => w.account.address))
      = ws.map (fun w => w.account.address) := by
  intro ts
  induction ts with
  | nil => intro ws; rfl
  | cons t tl ih =>
    intro ws
    rw [List.foldl_cons, ih]
    rw [updateWalletDetails, List.map_map]
    apply List.map_congr_left
    intro w _
    by_cases h : w.account.id == t.account.id <;> simp [Function.comp, h]


theorem foldl_updateWalletDetails_eq_map (N : String) :
    ∀ (ts ws : List WalletConnection),
    ((ts.map (fun t => t.account.id)).Nodup) →
    (∀ t ∈ ts, ∀ w ∈ ws, w.account.id = t.account.id → w.details = t.details) →
    ts.foldl (fun ws t => updateWalletDetails ws t.account.id
        { t.details with token := N }) ws
      = ws.map (fun w =>
          if w.account.id ∈ ts.map (fun t => t.account.id) then
            { w with details := { w.details with token := N } } else w) := by
  intro ts
  induction ts with
  | nil =>
    intro ws _ _
    simp
  | cons t tl ih =>
    intro ws hnd hagree
    have hnd2 : (tl.map (fun t => t.account.id)).Nodup := by
      rw [List.map_cons, List.nodup_cons] at hnd
      exact hnd.2
    have htid : t.account.id ∉ tl.map (fun t => t.account.id) := by
      rw [List.map_cons, List.nodup_cons] at hnd
      exact hnd.1
    have hagree2 : ∀ t2 ∈ tl,
        ∀ w2 ∈ updateWalletDetails ws t.account.id { t.details with token := N },
        w2.account.id = t2.account.id → w2.details = t2.details := by
      intro t2 ht2 w2 hw2 heq
      rw [updateWalletDetails, List.mem_map] at hw2
      obtain ⟨w, hw, rfl⟩ := hw2
      simp only [beq_iff_eq] at heq ⊢
      by_cases hid : w.account.id = t.account.id
      · exfalso
        rw [if_pos hid] at heq
        have heq2 : w.account.id = t2.account.id := heq
        apply htid
        rw [List.mem_map]
        refine ⟨t2, ht2, ?_⟩
        show t2.account.id = t.account.id
        rw [← heq2]
        exact hid
      · rw [if_neg hid] at heq ⊢
        exact hagree t2 (List.mem_cons_of_mem _ ht2) w hw heq
    rw [List.foldl_cons, ih _ hnd2 hagree2]
    rw [updateWalletDetails, List.map_map, List.map_cons]
    apply List.map_congr_left
    intro w hw
    simp only [Function.comp_apply, beq_iff_eq]
    by_cases hid : w.account.id = t.account.id
    · have hdet : w.details = t.details :=
        hagree t (List.mem_cons_self _ _) w hw hid
    
      rw [if_pos hid]
      rw [if_neg (show ¬ ({ w with details := { t.details with token := N }
        } : WalletConnection).account.id ∈ tl.map (fun t => t.account.id) by
          show ¬ w.account.id ∈ tl.map (fun t => t.account.id)
          rw [hid]
          exact htid)]
      rw [if_pos (show w.account.id ∈ t.account.id :: tl.map (fun t => t.account.id) by
        rw [hid]
        exact List.mem_cons_self _ _)]
      rw [hdet]
    · rw [if_neg hid]
      by_cases hmem : w.account.id ∈ tl.map (fun t => t.account.id)
      · rw [if_pos hmem, if_pos (List.mem_cons_of_mem _ hmem)]
      · rw [if_neg hmem, if_neg (show
          ¬ w.account.id ∈ t.account.id :: tl.map (fun t => t.account.id) by
            intro hc
            rcases List.mem_cons.mp hc with h1 | h2
            · exact hid h1
            · exact hmem h2)]

/-- Claim C2: for every wallet set with distinct account ids and every
rotation event, `#handleTokenChangedEvent` sets the stored token to the
event's `newRefreshToken` for exactly those wallets whose details satisfy both
`token == oldRefreshToken` and `custodianApiUrl == apiUrl`, and leaves every
other wallet unchanged. -/
theorem handleTokenChangedEvent_updates_exactly_matching_wallets
    (s : KeyringState) (p : IRefreshTokenChangeEvent)
    (h : (s.wallets.map (fun w => w.account.id)).Nodup) :
    (handleTokenChangedEvent s p).wallets
      = s.wallets.map (fun w =>
          if walletMatchesEvent p w then
            { w with details := { w.details with token := p.newRefreshToken } }
          else w) := by
  have hsub : ((s.wallets.filter (walletMatchesEvent p)).map
      (fun t => t.account.id)).Nodup :=
    List.Nodup.sublist (List.Sublist.map _ (List.filter_sublist _)) h
  have hagree : ∀ t ∈ s.wallets.filter (walletMatchesEvent p),
      ∀ w ∈ s.wallets, w.account.id = t.account.id → w.details = t.details := by
    intro t ht w hw heq
    have hwt : w = t :=
      List.inj_on_of_nodup_map h hw (List.mem_of_mem_filter ht) heq
    rw [hwt]
  rw [show handleTokenChangedEvent s p
      = (s.wallets.filter (walletMatchesEvent p)).foldl (rotateWalletStep p) s
    from rfl]
  rw [foldl_rotate_wallets, foldl_updateWalletDetails_eq_map _ _ _ hsub hagree]
  apply List.map_congr_left
  intro w hw
  by_cases hm : walletMatchesEvent p w = true
  · rw [if_pos hm]
    rw [if_pos (List.mem_map.mpr ⟨w, List.mem_filter.mpr ⟨hw, hm⟩, rfl⟩)]
  · rw [if_neg hm]
    rw [if_neg (show ¬ w.account.id ∈ (s.wallets.filter
        (walletMatchesEvent p)).map (fun t => t.account.id) by
      intro hc
      obtain ⟨t, ht, hID⟩ := List.mem_map.mp hc
      have hwt : t = w :=
        List.inj_on_of_nodup_map h (List.mem_of_mem_filter ht) hw hID
      apply hm
      rw [← hwt]
      exact List.of_mem_filter ht)]

/-- Witness for C2: the §8 fan-out example.  With wallets
`(T,U), (T,U), (T,V)` and the event `apiUrl U, old T, new N`, exactly the two
matching wallets end with token `N` and the third keeps `T`. -/
theorem handleTokenChangedEvent_updates_exactly_matching_wallets_witness :
    (handleTokenChangedEvent rotationDemoState demoEvent).wallets
      = [demoWallet "1" "0xA" "N" "U", demoWallet "2" "0xB" "N" "U",
         demoWallet "3" "0xC" "T" "V"] := by
  rw [handleTokenChangedEvent_updates_exactly_matching_wallets
    rotationDemoState demoEvent (by decide)]
  decide

/-- Claim C1 (corrected): when a rotation event is handled, every matching
wallet's cache entry keyed by the wallet's *stored* account address is
removed; therefore, provided the stored address is the key under which the
client was cached — in particular whenever the stored address is already in
checksum form, since `getCustodianApiForAddress` caches under the checksummed
key — the next `getCustodianApiForAddress` call for any spelling that
checksums to that stored address constructs a fresh client (one carrying the
freshly allocated identity) instead of returning a stale one. -/
theorem rotation_invalidates_checksummed_entry
    (toChecksumAddress : String → String) (s : KeyringState)
    (p : IRefreshTokenChangeEvent) (w : WalletConnection)
    (hw : w ∈ s.wallets) (hm : walletMatchesEvent p w = true)
    (addr : String) (hnorm : toChecksumAddress addr = w.account.address) :
    mapGet (handleTokenChangedEvent s p).custodianApi w.account.address = none ∧
    ∃ s2 c, getCustodianApiForAddress toChecksumAddress
        (handleTokenChangedEvent s p) addr = .ok (s2, c) ∧
      c.clientId = s.nextClientId := by
  have hmem : w ∈ s.wallets.filter (walletMatchesEvent p) :=
    List.mem_filter.mpr ⟨hw, hm⟩
  have hcache : mapGet (handleTokenChangedEvent s p).custodianApi
      w.account.address = none := by
    rw [show handleTokenChangedEvent s p
        = (s.wallets.filter (walletMatchesEvent p)).foldl (rotateWalletStep p) s
      from rfl]
    rw [foldl_rotate_custodianApi]
    exact mapGet_foldl_mapDelete_mem _ _ hmem
  refine ⟨hcache, ?_⟩
  have haddr : w.account.address
      ∈ (handleTokenChangedEvent s p).wallets.map (fun x => x.account.address) := by
    rw [show handleTokenChangedEvent s p
        = (s.wallets.filter (walletMatchesEvent p)).foldl (rotateWalletStep p) s
      from rfl]
    rw [foldl_rotate_wallets, foldl_update_addresses]
    exact List.mem_map.mpr ⟨w, hw, rfl⟩
  have hfind : ((handleTokenChangedEvent s p).wallets.find?
      (fun x => x.account.address == w.account.address)).isSome := by
    rw [List.find?_isSome]
    obtain ⟨w2, hw2, he⟩ := List.mem_map.mp haddr
    exact ⟨w2, hw2, by simp [he]⟩
  cases hfw : (handleTokenChangedEvent s p).wallets.find?
      (fun x => x.account.address == w.account.address) with
  | none => rw [hfw] at hfind; simp at hfind
  | some wallet =>
    refine ⟨{ handleTokenChangedEvent s p with
        custodianApi := mapSet (handleTokenChangedEvent s p).custodianApi
          w.account.address (getCustodianApiFromDetails
            (handleTokenChangedEvent s p).nextClientId wallet.details)
        nextClientId := (handleTokenChangedEvent s p).nextClientId + 1 },
      getCustodianApiFromDetails
        (handleTokenChangedEvent s p).nextClientId wallet.details, ?_, ?_⟩
    · simp only [getCustodianApiForAddress, hnorm, hcache, getWalletByAddress, hfw]
    · rw [show (getCustodianApiFromDetails
          (handleTokenChangedEvent s p).nextClientId wallet.details).clientId
          = (handleTokenChangedEvent s p).nextClientId from rfl]
      rw [show handleTokenChangedEvent s p
          = (s.wallets.filter (walletMatchesEvent p)).foldl (rotateWalletStep p) s
        from rfl]
      rw [foldl_rotate_nextClientId]

/-- Witness for C1 (corrected): a wallet stored under the checksum-form
address `0xAB` with its client cached under that key; after the rotation
event its cache entry is gone and the next call (spelled `0xab`) builds a
fresh client with the next identity. -/
theorem rotation_invalidates_checksummed_entry_witness :
    mapGet (handleTokenChangedEvent checksummedWalletState demoEvent).custodianApi
      "0xAB" = none ∧
    ∃ s2 c, getCustodianApiForAddress demoChecksum
        (handleTokenChangedEvent checksummedWalletState demoEvent) "0xab"
        = .ok (s2, c) ∧
      c.clientId = 1 :=
  rotation_invalidates_checksummed_entry demoChecksum checksummedWalletState
    demoEvent (demoWallet "1" "0xAB" "T" "U") (by decide) (by decide) "0xab"
    (by decide)

/-- Counterexample to C1 as stated: a wallet stored under the lowercase
address `0xab` matches the rotation event, but the handler deletes the cache
key `0xab` (the stored address) while the client sits under the checksum key
`0xAB`, so the entry survives the event and the next
`getCustodianApiForAddress` call returns the stale cached client — the one
with the pre-rotation identity and the old refresh token — instead of
constructing a fresh one. -/
theorem rotation_misses_non_checksummed_entry :
    walletMatchesEvent demoEvent (demoWallet "1" "0xab" "T" "U") = true ∧
    demoChecksum "0xab" = "0xAB" ∧
    (handleTokenChangedEvent lowercaseWalletState demoEvent).custodianApi
      = [("0xAB", staleClient)] ∧
    getCustodianApiForAddress demoChecksum
        (handleTokenChangedEvent lowercaseWalletState demoEvent) "0xab"
      = .ok (handleTokenChangedEvent lowercaseWalletState demoEvent, staleClient) ∧
    staleClient.clientId
      ≠ (handleTokenChangedEvent lowercaseWalletState demoEvent).nextClientId ∧
    staleClient.refreshToken = demoEvent.oldRefreshToken := by
  decide

/-- Claim C9: `getCustodianApiForAddress` is keyed by the normalized address:
after a successful call with address `b`, a call with any address `a` that
normalizes to the same checksum (in particular any case-variant of `b`)
returns the identical cached client on the unchanged state; and the call
preserves distinctness of the cache keys, so at most one live client exists
per normalized address. -/
theorem getCustodianApiForAddress_normalization
    (toChecksumAddress : String → String) (s : KeyringState) (a b : String)
    (hab : toChecksumAddress a = toChecksumAddress b)
    (s2 : KeyringState) (c : ClientInstance)
    (hb : getCustodianApiForAddress toChecksumAddress s b = .ok (s2, c)) :
    getCustodianApiForAddress toChecksumAddress s2 a = .ok (s2, c) ∧
    ((s.custodianApi.map (fun kv => kv.1)).Nodup →
      (s2.custodianApi.map (fun kv => kv.1)).Nodup) := by
  simp only [getCustodianApiForAddress] at hb
  cases hget : mapGet s.custodianApi (toChecksumAddress b) with
  | some api =>
    simp only [hget] at hb
    injection hb with h1
    injection h1 with hs hc
    subst hs
    subst hc
    constructor
    · simp only [getCustodianApiForAddress, hab, hget]
    · intro hn
      exact hn
  | none =>
    simp only [hget] at hb
    cases hwallet : getWalletByAddress s.wallets (toChecksumAddress b) with
    | none =>
      simp only [hwallet] at hb
      simp at hb
    | some wallet =>
      simp only [hwallet] at hb
      injection hb with h1
      injection h1 with hs hc
      subst hs
      subst hc
      constructor
      · simp only [getCustodianApiForAddress, hab,
          mapGet_mapSet_of_none hget]
      · intro hn
        exact mapSet_keys_nodup_of_none hget hn _

/-- Witness for C9: with the wallet stored under `0xAB` and its client
cached, a call spelled `0xAb` succeeds and a second call spelled `0xaB` (a
different case-variant) returns the identical client instance on the
unchanged state. -/
theorem getCustodianApiForAddress_normalization_witness :
    getCustodianApiForAddress demoChecksum checksummedWalletState "0xaB"
      = .ok (checksummedWalletState, staleClient) ∧
    (((checksummedWalletState.custodianApi.map (fun kv => kv.1)).Nodup) →
      ((checksummedWalletState.custodianApi.map (fun kv => kv.1)).Nodup)) :=
  getCustodianApiForAddress_normalization demoChecksum checksummedWalletState
    "0xaB" "0xAb" (by decide) checksummedWalletState staleClient (by decide)

/-- Claim C3: in `getAccessToken` of both protocol clients (the shared body
`clientGetAccessToken`, see the first two conjuncts), whenever the refresh
response is successful and carries a `refresh_token` different from the held
one, the held refresh token is replaced and the rotation event carrying
`(apiUrl, oldRefreshToken, newRefreshToken)` is emitted exactly once —
`events` is that singleton, produced synchronously by the same call that
returns the access token; if the response carries no `refresh_token` or an
identical one, no event is emitted and the held token is unchanged. -/
theorem getAccessToken_rotation_exactly_once
    (sha256hex : String → String) (now : Int) (st : ClientState)
    (response : RefreshResponse)
    (hfetch : (clientGetAccessToken sha256hex now st response).fetchPerformed = true)
    (hok : responseOk response = true) :
    ECA1Client.getAccessToken = clientGetAccessToken ∧
    ECA3Client.getAccessToken = clientGetAccessToken ∧
    (∀ rt, response.refresh_token = some rt → rt ≠ "" → rt ≠ st.refreshToken →
      (clientGetAccessToken sha256hex now st response).state.refreshToken = rt ∧
      (clientGetAccessToken sha256hex now st response).events
        = [.refreshTokenRotated ⟨st.apiBaseUrl, st.refreshToken, rt⟩] ∧
      (clientGetAccessToken sha256hex now st response).result
        = .ok response.access_token) ∧
    ((response.refresh_token = none ∨ response.refresh_token = some ""
        ∨ response.refresh_token = some st.refreshToken) →
      (clientGetAccessToken sha256hex now st response).events = [] ∧
      (clientGetAccessToken sha256hex now st response).state.refreshToken
        = st.refreshToken ∧
      (clientGetAccessToken sha256hex now st response).result
        = .ok response.access_token) := by
  have hc : (jsTruthyNum st.cacheAge && cacheExists st.cache &&
      cacheValid now st.cache (st.cacheAge.getD 0)) = false := by
    cases hcc : (jsTruthyNum st.cacheAge && cacheExists st.cache &&
        cacheValid now st.cache (st.cacheAge.getD 0)) with
    | true => simp [clientGetAccessToken, hcc] at hfetch
    | false => rfl
  have hstatus : response.status ≠ 401 := by
    intro he
    rw [responseOk, he] at hok
    exact absurd hok (by decide)
  have h401 : (response.status == 401 && jsTruthyStr response.url) = false := by
    have hb : (response.status == 401) = false := by
      simpa using hstatus
    simp [hb]
  have hnot : (!(responseOk response)) = false := by simp [hok]
  refine ⟨rfl, rfl, ?_, ?_⟩
  · intro rt hrt hne1 hne2
    refine ⟨?_, ?_, ?_⟩ <;>
      simp [clientGetAccessToken, hc, hstatus, hnot, hrt, jsTruthyStr, hne1, hne2]
  · intro hcase
    refine ⟨?_, ?_, ?_⟩ <;>
      rcases hcase with h | h | h <;>
        simp [clientGetAccessToken, hc, hstatus, hnot, jsTruthyStr, h]

/-- Witness for C3: with no cache, a successful response rotating `T` to `N`
makes the shared client body hold `N`, emit the rotation event exactly once,
and return the new access token. -/
theorem getAccessToken_rotation_exactly_once_witness :
    (clientGetAccessToken (fun s => s) 0 demoClientState rotatingResponse).state.refreshToken
      = "N" ∧
    (clientGetAccessToken (fun s => s) 0 demoClientState rotatingResponse).events
      = [.refreshTokenRotated ⟨"U", "T", "N"⟩] ∧
    (clientGetAccessToken (fun s => s) 0 demoClientState rotatingResponse).result
      = .ok "accessToken1" :=
  (getAccessToken_rotation_exactly_once (fun s => s) 0 demoClientState
    rotatingResponse (by decide) (by decide)).2.2.1 "N" rfl (by decide) (by decide)

/-- Claim C4: in `getAccessToken` of both protocol clients (the shared body
`clientGetAccessToken`), a 401 refresh response whose body carries a `url`
field makes the call emit the token-expired event whose token field is the
SHA-256 hash (the `sha256hex` primitive) of the old refresh token concatenated
with the url — never the raw token — and fail with the refresh-token-invalid
error; the client state, including the cached access token, is unchanged, and
by construction the call contacts the endpoint at most once (no retry). -/
theorem getAccessToken_token_expired_path
    (sha256hex : String → String) (now : Int) (st : ClientState)
    (response : RefreshResponse) (u : String)
    (hfetch : (clientGetAccessToken sha256hex now st response).fetchPerformed = true)
    (h401 : response.status = 401) (hurl : response.url = some u)
    (hne : u ≠ "") :
    ECA1Client.getAccessToken = clientGetAccessToken ∧
    ECA3Client.getAccessToken = clientGetAccessToken ∧
    (clientGetAccessToken sha256hex now st response).events
      = [.tokenExpired u (sha256hex (st.refreshToken ++ u))] ∧
    (clientGetAccessToken sha256hex now st response).result
      = .error "Error getting the Access Token: Refresh token provided is no longer valid." ∧
    (clientGetAccessToken sha256hex now st response).state = st := by
  have hc : (jsTruthyNum st.cacheAge && cacheExists st.cache &&
      cacheValid now st.cache (st.cacheAge.getD 0)) = false := by
    cases hcc : (jsTruthyNum st.cacheAge && cacheExists st.cache &&
        cacheValid now st.cache (st.cacheAge.getD 0)) with
    | true => simp [clientGetAccessToken, hcc] at hfetch
    | false => rfl
  have hcond : (response.status == 401 && jsTruthyStr response.url) = true := by
    simp [h401, hurl, jsTruthyStr, hne]
  refine ⟨rfl, rfl, ?_, ?_, ?_⟩ <;>
  · simp only [clientGetAccessToken]
    rw [hc, if_neg (by decide), hcond, if_pos rfl, hurl]
    try rfl

/-- Witness for C4: a 401 response with a `url` body field makes the call
emit the hashed-token expiry event, fail, and leave the state unchanged. -/
theorem getAccessToken_token_expired_path_witness :
    ECA1Client.getAccessToken = clientGetAccessToken ∧
    ECA3Client.getAccessToken = clientGetAccessToken ∧
    (clientGetAccessToken (fun s => s) 0 demoClientState expiredResponse).events
      = [.tokenExpired "https://onboard.example.com"
          ("T" ++ "https://onboard.example.com")] ∧
    (clientGetAccessToken (fun s => s) 0 demoClientState expiredResponse).result
      = .error "Error getting the Access Token: Refresh token provided is no longer valid." ∧
    (clientGetAccessToken (fun s => s) 0 demoClientState expiredResponse).state
      = demoClientState :=
  getAccessToken_token_expired_path (fun s => s) 0 demoClientState
    expiredResponse "https://onboard.example.com" (by decide) rfl rfl (by decide)

/-- Claim C5: in `getAccessToken` of both protocol clients (the shared body
`clientGetAccessToken`), a stored cache age of zero or never-set means the
cached access token is never returned — the refresh endpoint is always
contacted; and with a positive cache age, an existing cache entry that is
still valid for that age is returned as-is with no network call and no state
change. -/
theorem getAccessToken_cache_policy
    (sha256hex : String → String) (now : Int) (st : ClientState)
    (response : RefreshResponse) :
    ECA1Client.getAccessToken = clientGetAccessToken ∧
    ECA3Client.getAccessToken = clientGetAccessToken ∧
    ((st.cacheAge = none ∨ st.cacheAge = some 0) →
      (clientGetAccessToken sha256hex now st response).fetchPerformed = true) ∧
    (∀ a entry, st.cacheAge = some a → 0 < a → st.cache = some entry →
      now < entry.issuedAt + a →
      clientGetAccessToken sha256hex now st response
        = { state := st, events := [], result := .ok entry.value
            fetchPerformed := false }) := by
  refine ⟨rfl, rfl, ?_, ?_⟩
  · intro h
    have hc : (jsTruthyNum st.cacheAge && cacheExists st.cache &&
        cacheValid now st.cache (st.cacheAge.getD 0)) = false := by
      rcases h with h | h <;> simp [jsTruthyNum, h]
    simp only [clientGetAccessToken, hc, Bool.false_eq_true, if_false]
    split
    · rfl
    · split
      · rfl
      · split <;> rfl
  · intro a entry ha hpos hentry hvalid
    have hc : (jsTruthyNum st.cacheAge && cacheExists st.cache &&
        cacheValid now st.cache (st.cacheAge.getD 0)) = true := by
      simp [jsTruthyNum, ha, hentry, cacheExists, cacheValid, hvalid]
      omega
    simp only [clientGetAccessToken]
    rw [hc, if_pos rfl, hentry]
    rfl

/-- Witness for C5: with no cache age set, the call contacts the endpoint;
with a cache age of 100 and a token issued at 0, a call at time 50 returns the
cached value with no network call and no state change. -/
theorem getAccessToken_cache_policy_witness :
    (clientGetAccessToken (fun s => s) 0 demoClientState plainResponse).fetchPerformed
      = true ∧
    clientGetAccessToken (fun s => s) 50 cachedClientState plainResponse
      = { state := cachedClientState, events := []
          result := .ok "cachedAccessToken", fetchPerformed := false } :=
  ⟨(getAccessToken_cache_policy (fun s => s) 0 demoClientState
      plainResponse).2.2.1 (Or.inl rfl),
   (getAccessToken_cache_policy (fun s => s) 50 cachedClientState
      plainResponse).2.2.2 100 { value := "cachedAccessToken", issuedAt := 0 }
      rfl (by decide) rfl (by decide)⟩

/-- Claim C6: `createAccount` is two-phase.  A duplicate address fails before
any external registration event is emitted; in strict (non-dev) mode an API
URL absent from the allow-list fails before any event; when the external
acceptor vetoes the `AccountCreated` event, the call fails and no wallet is
added; and a wallet is added to local state only on a call where the event
was emitted and accepted. -/
theorem createAccount_two_phase
    (dev accepted : Bool) (newId : String) (wallets : List WalletConnection)
    (options : CreateAccountOptions) :
    ((∃ w ∈ wallets, w.account.address = options.address) →
      (∃ e, (createAccount dev accepted newId wallets options).result = .error e) ∧
      (createAccount dev accepted newId wallets options).accountCreatedEmitted = false ∧
      (createAccount dev accepted newId wallets options).walletsAfter = wallets) ∧
    (dev = false →
      custodianMetadata.find? (fun item =>
        item.apiBaseUrl == options.details.custodianApiUrl) = none →
      (∃ e, (createAccount dev accepted newId wallets options).result = .error e) ∧
      (createAccount dev accepted newId wallets options).accountCreatedEmitted = false ∧
      (createAccount dev accepted newId wallets options).walletsAfter = wallets) ∧
    (accepted = false →
      (∃ e, (createAccount dev accepted newId wallets options).result = .error e) ∧
      (createAccount dev accepted newId wallets options).walletsAfter = wallets) ∧
    ((createAccount dev accepted newId wallets options).walletsAfter ≠ wallets →
      accepted = true ∧
      (createAccount dev accepted newId wallets options).accountCreatedEmitted = true ∧
      ∃ a, (createAccount dev accepted newId wallets options).result = .ok a) := by
  refine ⟨?_, ?_, ?_, ?_⟩
  · intro hex
    obtain ⟨w, hw, ha⟩ := hex
    have hdup : isUniqueAddress options.address wallets = false := by
      simp [isUniqueAddress, List.any_eq_true]
      exact ⟨w, hw, ha⟩
    by_cases h1 : (!dev && (custodianMetadata.find? (fun item =>
        item.apiBaseUrl == options.details.custodianApiUrl)).isNone) = true
    · have hrec : createAccount dev accepted newId wallets options
          = { result := .error ("No custodian allowlisted for API URL: "
                ++ options.details.custodianApiUrl)
              accountCreatedEmitted := false, walletsAfter := wallets } := by
        simp [createAccount, h1]
      rw [hrec]
      exact ⟨⟨_, rfl⟩, rfl, rfl⟩
    · have hrec : createAccount dev accepted newId wallets options
          = { result := .error ("Account address already in use: " ++ options.address)
              accountCreatedEmitted := false, walletsAfter := wallets } := by
        simp [createAccount, h1, hdup]
      rw [hrec]
      exact ⟨⟨_, rfl⟩, rfl, rfl⟩
  · intro hdev hnone
    have hrec : createAccount dev accepted newId wallets options
        = { result := .error ("No custodian allowlisted for API URL: "
              ++ options.details.custodianApiUrl)
            accountCreatedEmitted := false, walletsAfter := wallets } := by
      simp [createAccount, hdev, hnone]
    rw [hrec]
    exact ⟨⟨_, rfl⟩, rfl, rfl⟩
  · intro hacc
    by_cases h1 : (!dev && (custodianMetadata.find? (fun item =>
        item.apiBaseUrl == options.details.custodianApiUrl)).isNone) = true
    · exact ⟨by simp [createAccount, h1], by simp [createAccount, h1]⟩
    · by_cases h2 : isUniqueAddress options.address wallets = true
      · exact ⟨by simp [createAccount, h1, h2, hacc],
          by simp [createAccount, h1, h2, hacc]⟩
      · have h2f : isUniqueAddress options.address wallets = false := by
          simpa using h2
        exact ⟨by simp [createAccount, h1, h2f],
          by simp [createAccount, h1, h2f]⟩
  · intro hne
    by_cases h1 : (!dev && (custodianMetadata.find? (fun item =>
        item.apiBaseUrl == options.details.custodianApiUrl)).isNone) = true
    · exact absurd (by simp [createAccount, h1]) hne
    · by_cases h2 : isUniqueAddress options.address wallets = true
      · by_cases h3 : accepted = true
        · exact ⟨h3, by simp [createAccount, h1, h2, h3],
            by simp [createAccount, h1, h2, h3]⟩
        · have h3f : accepted = false := by simpa using h3
          exact absurd (by simp [createAccount, h1, h2, h3f]) hne
      · have h2f : isUniqueAddress options.address wallets = false := by
          simpa using h2
        exact absurd (by simp [createAccount, h1, h2f]) hne

/-- Witness for C6: a duplicate address fails with no event and no state
change; an unknown custodian URL in strict mode fails with no event; a vetoed
creation at an allow-listed URL fails with the wallet list unchanged. -/
theorem createAccount_two_phase_witness :
    ((∃ e, (createAccount false true "id-1"
        [demoWallet "1" "0xAB" "T" "https://mmi.fireblocks.io"]
        (demoCreateOptions "0xAB" "https://mmi.fireblocks.io")).result = .error e) ∧
      (createAccount false true "id-1"
        [demoWallet "1" "0xAB" "T" "https://mmi.fireblocks.io"]
        (demoCreateOptions "0xAB" "https://mmi.fireblocks.io")).accountCreatedEmitted
        = false ∧
      (createAccount false true "id-1"
        [demoWallet "1" "0xAB" "T" "https://mmi.fireblocks.io"]
        (demoCreateOptions "0xAB" "https://mmi.fireblocks.io")).walletsAfter
        = [demoWallet "1" "0xAB" "T" "https://mmi.fireblocks.io"]) ∧
    ((∃ e, (createAccount false true "id-2" []
        (demoCreateOptions "0xCD" "https://unknown.example.com")).result = .error e) ∧
      (createAccount false true "id-2" []
        (demoCreateOptions "0xCD" "https://unknown.example.com")).accountCreatedEmitted
        = false ∧
      (createAccount false true "id-2" []
        (demoCreateOptions "0xCD" "https://unknown.example.com")).walletsAfter = []) ∧
    ((∃ e, (createAccount false false "id-3" []
        (demoCreateOptions "0xCD" "https://mmi.fireblocks.io")).result = .error e) ∧
      (createAccount false false "id-3" []
        (demoCreateOptions "0xCD" "https://mmi.fireblocks.io")).walletsAfter = []) :=
  ⟨(createAccount_two_phase false true "id-1"
      [demoWallet "1" "0xAB" "T" "https://mmi.fireblocks.io"]
      (demoCreateOptions "0xAB" "https://mmi.fireblocks.io")).1
      ⟨demoWallet "1" "0xAB" "T" "https://mmi.fireblocks.io", by decide, by decide⟩,
   (createAccount_two_phase false true "id-2" []
      (demoCreateOptions "0xCD" "https://unknown.example.com")).2.1 rfl (by decide),
   (createAccount_two_phase false false "id-3" []
      (demoCreateOptions "0xCD" "https://mmi.fireblocks.io")).2.2.1 rfl⟩

/-- Claim C7: `#handleSigningRequest` fails with an account-not-found error
when the target account id is unknown, and with an unsupported-method error
when the method is absent from the account's supported-method list or is not
one of the four dispatched signing methods; in both failure cases no
custodian-client interaction is started and no request record is upserted. -/
theorem handleSigningRequest_validation
    (getAccount : String → Option Account)
    (custodianOutcome : Except String String) (req : KeyringRequest) :
    (getAccount req.account = none →
      (handleSigningRequest getAccount custodianOutcome req).result
        = .error ("Account " ++ req.account ++ " not found") ∧
      (handleSigningRequest getAccount custodianOutcome req).custodianCalls = 0 ∧
      (handleSigningRequest getAccount custodianOutcome req).upserts = []) ∧
    (∀ account, getAccount req.account = some account →
      (req.method ∉ account.methods ∨
        (req.method ≠ EthMethod.PersonalSign ∧
         req.method ≠ EthMethod.SignTransaction ∧
         req.method ≠ EthMethod.SignTypedDataV3 ∧
         req.method ≠ EthMethod.SignTypedDataV4)) →
      (∃ e, (handleSigningRequest getAccount custodianOutcome req).result = .error e) ∧
      (handleSigningRequest getAccount custodianOutcome req).custodianCalls = 0 ∧
      (handleSigningRequest getAccount custodianOutcome req).upserts = []) := by
  constructor
  · intro h
    refine ⟨?_, ?_, ?_⟩ <;> simp [handleSigningRequest, h]
  · intro account hacc hbad
    rcases hbad with hnotmem | ⟨h1, h2, h3, h4⟩
    · have hrec : handleSigningRequest getAccount custodianOutcome req
          = { result := .error ("Method " ++ req.method
                ++ " not supported for account " ++ account.address)
              custodianCalls := 0, upserts := [] } := by
        simp [handleSigningRequest, hacc, hnotmem]
      rw [hrec]
      exact ⟨⟨_, rfl⟩, rfl, rfl⟩
    · by_cases hmem : req.method ∈ account.methods
      · have hrec : handleSigningRequest getAccount custodianOutcome req
            = { result := .error ("EVM method " ++ req.method ++ " not supported")
                custodianCalls := 0, upserts := [] } := by
          simp [handleSigningRequest, hacc, hmem, h1, h2, h3, h4]
        rw [hrec]
        exact ⟨⟨_, rfl⟩, rfl, rfl⟩
      · have hrec : handleSigningRequest getAccount custodianOutcome req
            = { result := .error ("Method " ++ req.method
                  ++ " not supported for account " ++ account.address)
                custodianCalls := 0, upserts := [] } := by
          simp [handleSigningRequest, hacc, hmem]
        rw [hrec]
        exact ⟨⟨_, rfl⟩, rfl, rfl⟩

/-- Witness for C7: an unknown account id fails with account-not-found, and a
method outside the four dispatched signing methods fails unsupported; both
with zero custodian interactions and no persisted record. -/
theorem handleSigningRequest_validation_witness :
    ((handleSigningRequest demoGetAccount (Except.ok "id-1")
        { id := "r1", account := "acc-2", method := EthMethod.PersonalSign }).result
        = .error ("Account " ++ "acc-2" ++ " not found") ∧
      (handleSigningRequest demoGetAccount (Except.ok "id-1")
        { id := "r1", account := "acc-2", method := EthMethod.PersonalSign }).custodianCalls
        = 0 ∧
      (handleSigningRequest demoGetAccount (Except.ok "id-1")
        { id := "r1", account := "acc-2", method := EthMethod.PersonalSign }).upserts
        = []) ∧
    ((∃ e, (handleSigningRequest demoGetAccount (Except.ok "id-1")
        (demoRequest "eth_sign")).result = .error e) ∧
      (handleSigningRequest demoGetAccount (Except.ok "id-1")
        (demoRequest "eth_sign")).custodianCalls = 0 ∧
      (handleSigningRequest demoGetAccount (Except.ok "id-1")
        (demoRequest "eth_sign")).upserts = []) :=
  ⟨(handleSigningRequest_validation demoGetAccount (Except.ok "id-1")
      { id := "r1", account := "acc-2", method := EthMethod.PersonalSign }).1 rfl,
   (handleSigningRequest_validation demoGetAccount (Except.ok "id-1")
      (demoRequest "eth_sign")).2 (demoAccount "acc-1" "0xAB") rfl
      (Or.inl (by decide))⟩

/-- Claim C8: once the custodian signing call of `#asyncSubmitRequest`
succeeds, a deep-link fetch failure does not fail the submission: the
rendered message uses the fallback link text with the custodian id, and the
call resolves with the pending acknowledgment; on this path the result is
always `pending` and never a signature. -/
theorem asyncSubmitRequest_deeplink_fallback
    (getAccount : String → Option Account)
    (custodianOutcome : Except String String)
    (linkFetch : Except String CustodianDeepLink) (req : KeyringRequest)
    (custodianId : String)
    (hsig : (handleSigningRequest getAccount custodianOutcome req).result
      = .ok custodianId) :
    (asyncSubmitRequest getAccount custodianOutcome linkFetch req).result
      = .ok .pending ∧
    (∀ e, linkFetch = .error e →
      (asyncSubmitRequest getAccount custodianOutcome linkFetch req).renderedMessage
        = some ("Complete in Custodian App" ++ " Transaction ID: " ++ custodianId)) ∧
    (∀ sig, (asyncSubmitRequest getAccount custodianOutcome linkFetch req).result
      ≠ .ok (.resolved sig)) := by
  cases hacc : getAccount req.account with
  | none => simp [handleSigningRequest, hacc] at hsig
  | some account =>
    refine ⟨?_, ?_, ?_⟩
    · simp [asyncSubmitRequest, hsig, hacc]
    · intro e he
      simp [asyncSubmitRequest, hsig, hacc, he]
    · intro sig
      simp [asyncSubmitRequest, hsig, hacc]

/-- Witness for C8: with a successful personal-sign custodian call and a
failing deep-link fetch, the submission still resolves `pending` and renders
the fallback message. -/
theorem asyncSubmitRequest_deeplink_fallback_witness :
    (asyncSubmitRequest demoGetAccount (Except.ok "tx-9")
        (Except.error "link unavailable") (demoRequest EthMethod.PersonalSign)).result
      = .ok .pending ∧
    (asyncSubmitRequest demoGetAccount (Except.ok "tx-9")
        (Except.error "link unavailable") (demoRequest EthMethod.PersonalSign)).renderedMessage
      = some ("Complete in Custodian App" ++ " Transaction ID: " ++ "tx-9") :=
  ⟨(asyncSubmitRequest_deeplink_fallback demoGetAccount (Except.ok "tx-9")
      (Except.error "link unavailable") (demoRequest EthMethod.PersonalSign) "tx-9"
      (by decide)).1,
   (asyncSubmitRequest_deeplink_fallback demoGetAccount (Except.ok "tx-9")
      (Except.error "link unavailable") (demoRequest EthMethod.PersonalSign) "tx-9"
      (by decide)).2.1 "link unavailable" rfl⟩

/-- Claim C10: in production (non-dev) mode `listRequests` returns the empty
list whatever is stored and `getRequest` fails for every id; in dev mode they
return the stored `keyringRequest` records, `getRequest` failing exactly when
no stored request has the given id. -/
theorem requests_dev_mode_gating (stored : List CustodialSnapRequest)
    (id : String) :
    listRequests false stored = [] ∧
    (∃ e, getRequest false stored id = .error e) ∧
    listRequests true stored = stored.map (fun r => r.keyringRequest) ∧
    ((∃ e, getRequest true stored id = .error e)
      ↔ ¬ ∃ r ∈ stored, r.keyringRequest.id = id) := by
  refine ⟨rfl, ⟨_, rfl⟩, by simp [listRequests], ?_⟩
  constructor
  · rintro ⟨e, he⟩ ⟨r, hr, hid⟩
    have hsome : (stored.find? (fun r => r.keyringRequest.id == id)).isSome := by
      rw [List.find?_isSome]
      exact ⟨r, hr, by simp [hid]⟩
    cases hf : stored.find? (fun r => r.keyringRequest.id == id) with
    | none => rw [hf] at hsome; simp at hsome
    | some r2 => simp [getRequest, hf] at he
  · intro hnone
    cases hf : stored.find? (fun r => r.keyringRequest.id == id) with
    | none => exact ⟨"Request " ++ id ++ " not found", by simp [getRequest, hf]⟩
    | some r2 =>
      exfalso
      apply hnone
      have hp := List.find?_some hf
      exact ⟨r2, List.mem_of_find?_eq_some hf, by simpa using hp⟩

/-- Witness for C10: with one stored record, production mode returns nothing
and dev mode returns the stored keyring request; an unknown id fails exactly
because no stored request has it. -/
theorem requests_dev_mode_gating_witness :
    listRequests false [demoStoredRequest "req-7"] = [] ∧
    listRequests true [demoStoredRequest "req-7"]
      = [(demoStoredRequest "req-7").keyringRequest] ∧
    ((∃ e, getRequest true [demoStoredRequest "req-7"] "missing" = .error e)
      ↔ ¬ ∃ r ∈ [demoStoredRequest "req-7"], r.keyringRequest.id = "missing") :=
  ⟨(requests_dev_mode_gating [demoStoredRequest "req-7"] "req-7").1,
   (requests_dev_mode_gating [demoStoredRequest "req-7"] "req-7").2.2.1,
   (requests_dev_mode_gating [demoStoredRequest "req-7"] "missing").2.2.2⟩
